import Mathlib

/-!
Shallow embedding of the reservation core of the Spring Hotel application.

The definitions below are transcribed from the source:
* `calculateTotal`, `getTotalCapacity`, `onSubmit` from `src/pages/Reservation.tsx`,
* `updateReservationStatus` and the per-status action buttons from
  `src/pages/admin/AdminReservations.tsx`,
* `handleCancelReservation` and the cancel-button guard from
  `src/pages/MyReservations.tsx`,
* `handleAddRoom` from `src/pages/Rooms.tsx`,
* the row-level-security insert policy for reservations, the
  `handle_new_user` trigger and the `user_roles` table from the SQL migration,
* `updateUserRole` from `src/pages/admin/AdminUsers.tsx`.

Dates are modelled as integer milliseconds since the epoch (the value of
`Date.getTime()` used by the source for all date arithmetic and comparisons);
monetary amounts are rationals (the database column is `DECIMAL(10,2)`).
-/

namespace SpringHotel

/-- A room as used by the reservation flow: id, name, type, capacity,
nightly price and status (a free-form string in the source; the database
default is "available"). -/
structure Room where
  id : String
  name : String
  type : String
  capacity : Int
  price : ℚ
  status : String
deriving DecidableEq, Repr

/-- Guest contact record collected by the reservation form. -/
structure GuestData where
  firstName : String
  lastName : String
  email : String
  phone : String
  documentId : String
deriving DecidableEq, Repr

/-- The four reservation statuses used by the application. -/
inductive RStatus where
  | pending
  | confirmed
  | completed
  | cancelled
deriving DecidableEq, Repr

/-- A persisted reservation row (the fields of the `reservations` table that
the business logic reads and writes). -/
structure Reservation where
  user_id : String
  room_ids : List String
  check_in : Int
  check_out : Int
  guests : Int
  total_price : ℚ
  status : RStatus
  guest_data : GuestData
deriving DecidableEq, Repr

/-- Milliseconds in one day, the divisor `1000 * 60 * 60 * 24` used by
`calculateTotal`. -/
def msPerDay : Int := 1000 * 60 * 60 * 24

/-- Number of nights as computed by the source:
`Math.ceil((checkOut.getTime() - checkIn.getTime()) / (1000*60*60*24))`. -/
def nightsOf (checkIn checkOut : Int) : Int :=
  ⌈((checkOut - checkIn : Int) : ℚ) / (msPerDay : ℚ)⌉

/-- `calculateTotal` from `Reservation.tsx`: returns 0 when a date is missing
or no room is selected, otherwise nights times the sum of the nightly rates. -/
def calculateTotal (rooms : List Room) (checkIn checkOut : Option Int) : ℚ :=
  match checkIn, checkOut with
  | some ci, some co =>
      if rooms = [] then 0
      else ((nightsOf ci co : Int) : ℚ) * (rooms.map Room.price).sum
  | _, _ => 0

/-- `getTotalCapacity` from `Reservation.tsx`: sum of the capacities of the
selected rooms. -/
def getTotalCapacity (rooms : List Room) : Int :=
  (rooms.map Room.capacity).sum

/-- The ways `onSubmit` can refuse to create a reservation, in the order the
source checks them: no authenticated user, a missing date, check-out not
strictly after check-in, and more guests than the selected rooms hold (the
payload is the capacity bound interpolated into the error message). -/
inductive SubmitError where
  | notLoggedIn
  | missingDates
  | invalidDateRange
  | capacityExceeded (maxAllowed : Int)
deriving DecidableEq, Repr

/-- `onSubmit` from `Reservation.tsx`: validates the user, the dates and the
capacity in source order and, when all checks pass, builds the reservation row
inserted into the `reservations` table (status `pending`, total price from
`calculateTotal`). -/
def onSubmit (user : Option String) (rooms : List Room)
    (checkIn checkOut : Option Int) (guests : Int) (guestData : GuestData) :
    Except SubmitError Reservation :=
  match user with
  | none => .error .notLoggedIn
  | some uid =>
      match checkIn, checkOut with
      | some ci, some co =>
          if co ≤ ci then .error .invalidDateRange
          else if getTotalCapacity rooms < guests then
            .error (.capacityExceeded (getTotalCapacity rooms))
          else
            .ok { user_id := uid
                  room_ids := rooms.map Room.id
                  check_in := ci
                  check_out := co
                  guests := guests
                  total_price := calculateTotal rooms (some ci) (some co)
                  status := .pending
                  guest_data := guestData }
      | _, _ => .error .missingDates

/-- The guests input handler from `Reservation.tsx`:
`setGuests(parseInt(e.target.value) || 1)`. `none` models a `NaN` parse;
`0` is falsy in JavaScript, so it is also replaced by 1. -/
def guestsFromInput (parsed : Option Int) : Int :=
  match parsed with
  | none => 1
  | some n => if n = 0 then 1 else n

/-- The three admin actions rendered by `AdminReservations.tsx`. -/
inductive AdminEvent where
  | confirm
  | cancel
  | complete
deriving DecidableEq, Repr

/-- Status written by `updateReservationStatus` for each admin button. -/
def eventTarget : AdminEvent → RStatus
  | .confirm => .confirmed
  | .cancel => .cancelled
  | .complete => .completed

/-- Which action buttons the admin table renders for a reservation:
Confirmar and Cancelar only when the status is `pending`, Completar only when
it is `confirmed`, and nothing otherwise. -/
def adminOffered (s : RStatus) (e : AdminEvent) : Bool :=
  match s, e with
  | .pending, .confirm => true
  | .pending, .cancel => true
  | .confirmed, .complete => true
  | _, _ => false

/-- `updateReservationStatus` from `AdminReservations.tsx`: the data-layer
update `update({ status: newStatus })`, which replaces the status and touches
no other business field. -/
def updateReservationStatus (r : Reservation) (newStatus : RStatus) : Reservation :=
  { r with status := newStatus }

/-- Failure of an attempted status transition: the interface renders no
action for the reservation's current status, so the update never runs. -/
inductive TransitionError where
  | invalidTransition
deriving DecidableEq, Repr

/-- An attempted admin transition as exposed by `AdminReservations.tsx`: when
the button for the event is rendered for the current status the update runs,
otherwise the attempt is rejected and the row is untouched. -/
def adminAttempt (r : Reservation) (e : AdminEvent) :
    Reservation × Option TransitionError :=
  if adminOffered r.status e then (updateReservationStatus r (eventTarget e), none)
  else (r, some .invalidTransition)

/-- Failure of a customer cancel: either the stay has already started
(the toast raised by `handleCancelReservation` when `checkIn <= today`), or
the reservation is not `pending` so `MyReservations.tsx` renders no cancel
button at all. -/
inductive CancelError where
  | alreadyStarted
  | notOffered
deriving DecidableEq, Repr

/-- Customer cancel as composed in `MyReservations.tsx`: the cancel button is
rendered only when the status is `pending`; its handler
`handleCancelReservation` rejects when `checkIn <= today` and otherwise runs
`update({ status: "cancelled" })`. -/
def customerCancel (r : Reservation) (now : Int) :
    Reservation × Option CancelError :=
  if r.status = .pending then
    if r.check_in ≤ now then (r, some .alreadyStarted)
    else (updateReservationStatus r .cancelled, none)
  else (r, some .notOffered)

/-- Failure of `handleAddRoom`: the room is not available. -/
inductive AddRoomError where
  | unavailable
deriving DecidableEq, Repr

/-- `handleAddRoom` from `Rooms.tsx`: rejects a room whose status is not
`"available"` leaving the selection as it was, otherwise appends the room to
the selection (`[...selectedRooms, room]`). -/
def handleAddRoom (sel : List Room) (room : Room) :
    List Room × Option AddRoomError :=
  if room.status ≠ "available" then (sel, some .unavailable)
  else (sel ++ [room], none)

/-- RLS policy "Users can create reservations" from the migration:
`WITH CHECK (auth.uid() = user_id)` for authenticated callers. -/
def canInsertReservation (callerUid : String) (r : Reservation) : Bool :=
  callerUid == r.user_id

/-- The `app_role` enum from the migration; `cliente` is the source's name
for the customer role. -/
inductive AppRole where
  | cliente
  | admin
deriving DecidableEq, Repr

/-- A row of the `user_roles` table. -/
structure RoleRow where
  user_id : String
  role : AppRole
deriving DecidableEq, Repr

/-- The part of the database state the role logic touches: the registered
user ids (`auth.users`) and the `user_roles` rows. -/
structure RoleState where
  users : List String
  roleRows : List RoleRow
deriving DecidableEq, Repr

/-- The `handle_new_user` trigger from the migration: on signup it inserts a
profile and one `user_roles` row with role `cliente`. -/
def handleNewUser (s : RoleState) (uid : String) : RoleState :=
  { users := s.users ++ [uid], roleRows := s.roleRows ++ [⟨uid, .cliente⟩] }

/-- `updateUserRole` from `AdminUsers.tsx`: first delete every role row of
the user, then insert a single row with the new role. -/
def updateUserRole (s : RoleState) (uid : String) (newRole : AppRole) : RoleState :=
  { s with roleRows :=
      (s.roleRows.filter fun row => row.user_id != uid) ++ [⟨uid, newRole⟩] }

/-- The operations of the application that create or change role rows: a
signup (which fires `handle_new_user`) and an admin role change. -/
inductive RoleOp where
  | signup (uid : String)
  | setRole (uid : String) (newRole : AppRole)

/-- One step of the role store. A signup only creates a new `auth.users` id
(ids are fresh UUIDs, the primary key forbids re-insertion), and the admin
role editor acts on users fetched from `profiles`, hence on registered ids. -/
def applyOp (s : RoleState) : RoleOp → RoleState
  | .signup uid => if uid ∈ s.users then s else handleNewUser s uid
  | .setRole uid newRole =>
      if uid ∈ s.users then updateUserRole s uid newRole else s

/-- The role store reached from the empty database by a sequence of
operations. -/
def runOps (ops : List RoleOp) : RoleState :=
  ops.foldl applyOp ⟨[], []⟩

/-- The role rows of one user. -/
def rolesOf (s : RoleState) (uid : String) : List AppRole :=
  (s.roleRows.filter fun row => row.user_id == uid).map RoleRow.role

/-- How many role rows one user has. -/
def countRolesOf (s : RoleState) (uid : String) : Nat :=
  (s.roleRows.filter fun row => row.user_id == uid).length

/-- Invariant of the role store: every role row belongs to a registered user
and no user has more than one role row. -/
def RoleInv (s : RoleState) : Prop :=
  (∀ row ∈ s.roleRows, row.user_id ∈ s.users) ∧
  ∀ uid, countRolesOf s uid ≤ 1

/-! Concrete values used in witnesses and counterexamples. -/

/-- An available double room, capacity 2, price 100 per night. -/
def roomA : Room := ⟨"room-a", "Room A", "doble", 2, 100, "available"⟩

/-- An available double room, capacity 2, price 150 per night. -/
def roomB : Room := ⟨"room-b", "Room B", "doble", 2, 150, "available"⟩

/-- A suite under maintenance. -/
def roomM : Room := ⟨"room-m", "Room M", "suite", 3, 320, "maintenance"⟩

/-- A concrete guest record. -/
def guestW : GuestData :=
  ⟨"Juan", "Perez", "juan@example.com", "1234567890", "12345"⟩

/-- A confirmed reservation whose stay started at time 0. -/
def rConfirmedPast : Reservation :=
  { user_id := "user-1", room_ids := ["room-a"], check_in := 0,
    check_out := msPerDay, guests := 2, total_price := 100,
    status := .confirmed, guest_data := guestW }

/-- A pending reservation whose check-in is at time `msPerDay`. -/
def rPendingW : Reservation :=
  { user_id := "user-1", room_ids := ["room-a"], check_in := msPerDay,
    check_out := 2 * msPerDay, guests := 2, total_price := 100,
    status := .pending, guest_data := guestW }

/-- A cancelled reservation. -/
def rCancelledW : Reservation :=
  { rPendingW with status := .cancelled }

/-- The reservation built by `onSubmit` for the spec's first example scenario:
rooms A and B, three nights, three guests, total 750. -/
def resW1 : Reservation :=
  { user_id := "user-1", room_ids := ["room-a", "room-b"], check_in := 0,
    check_out := 259200000, guests := 3, total_price := 750,
    status := .pending, guest_data := guestW }

/-- The reservation built by `onSubmit` when the guests input was the typed
string "-3": one night in room A with a guest count of -3. -/
def resNeg : Reservation :=
  { user_id := "user-1", room_ids := ["room-a"], check_in := 0,
    check_out := msPerDay, guests := -3, total_price := 100,
    status := .pending, guest_data := guestW }

/-- Every field of a reservation other than its status, for frame
statements. -/
def nonStatusFields (r : Reservation) :
    String × List String × Int × Int × Int × ℚ × GuestData :=
  (r.user_id, r.room_ids, r.check_in, r.check_out, r.guests,
   r.total_price, r.guest_data)

/-! Theorems. -/

/-- A strictly positive stay yields at least one night under the source's
`Math.ceil` formula. -/
lemma one_le_nightsOf (ci co : Int) (h : ci < co) : 1 ≤ nightsOf ci co := by
  have hpos : (0 : ℚ) < ((co - ci : Int) : ℚ) / (msPerDay : ℚ) := by
    apply div_pos
    · exact_mod_cast sub_pos.mpr h
    · norm_num [msPerDay]
  have := Int.ceil_pos.mpr hpos
  unfold nightsOf
  omega

/-- Claim C1: for every non-empty room selection and every pair of dates with
check-out strictly after check-in, the total price stored by `onSubmit` equals
the number of nights (the ceiling of the date difference in days) times the
sum of the nightly prices of the selected rooms. -/
theorem C1_total_price (user : String) (rooms : List Room) (ci co : Int)
    (guests : Int) (g : GuestData) (r : Reservation)
    (hne : rooms ≠ []) (hlt : ci < co)
    (h : onSubmit (some user) rooms (some ci) (some co) guests g = .ok r) :
    r.total_price = ((nightsOf ci co : Int) : ℚ) * (rooms.map Room.price).sum := by
  unfold onSubmit at h
  dsimp only at h
  rw [if_neg (not_le.mpr hlt)] at h
  by_cases hc : getTotalCapacity rooms < guests
  · rw [if_pos hc] at h
    exact absurd h (by simp)
  · rw [if_neg hc] at h
    injection h with h
    rw [← h]
    simp [calculateTotal, hne]

/-- Witness for C1: the spec's first example scenario (rooms of price 100 and
150, three nights) yields a stored total of nights times the price sum. -/
theorem C1_total_price_witness :
    resW1.total_price
      = ((nightsOf 0 259200000 : Int) : ℚ) * ([roomA, roomB].map Room.price).sum :=
  C1_total_price "user-1" [roomA, roomB] 0 259200000 3 guestW resW1
    (by simp) (by norm_num)
    (by simp [onSubmit, calculateTotal, getTotalCapacity, nightsOf, msPerDay,
          roomA, roomB, resW1]
        norm_num)

/-- Claim C2: the admin transition relation contains exactly
pending to confirmed, pending to cancelled and confirmed to completed; on the
terminal statuses cancelled and completed every attempt fails with the
invalid-transition outcome and leaves the reservation unchanged. -/
theorem C2_admin_state_machine :
    (∀ r e, (adminAttempt r e).2 = none →
        (r.status = RStatus.pending ∧ (adminAttempt r e).1.status = RStatus.confirmed) ∨
        (r.status = RStatus.pending ∧ (adminAttempt r e).1.status = RStatus.cancelled) ∨
        (r.status = RStatus.confirmed ∧ (adminAttempt r e).1.status = RStatus.completed)) ∧
    (∀ r, r.status = RStatus.pending →
        adminAttempt r .confirm = (updateReservationStatus r .confirmed, none) ∧
        adminAttempt r .cancel = (updateReservationStatus r .cancelled, none)) ∧
    (∀ r, r.status = RStatus.confirmed →
        adminAttempt r .complete = (updateReservationStatus r .completed, none)) ∧
    (∀ r e, r.status = RStatus.cancelled ∨ r.status = RStatus.completed →
        adminAttempt r e = (r, some TransitionError.invalidTransition)) := by
  refine ⟨?_, ?_, ?_, ?_⟩
  · intro r e h
    rcases hs : r.status <;> rcases e <;>
      simp [adminAttempt, adminOffered, eventTarget, updateReservationStatus, hs] at h ⊢
  · intro r hs
    constructor <;> simp [adminAttempt, adminOffered, eventTarget, hs]
  · intro r hs
    simp [adminAttempt, adminOffered, eventTarget, hs]
  · intro r e hs
    rcases hs with hs | hs <;> rcases e <;>
      simp [adminAttempt, adminOffered, hs]

/-- Witness for C2: confirming a concrete pending reservation succeeds, and
confirming a concrete cancelled reservation is rejected without change. -/
theorem C2_admin_state_machine_witness :
    adminAttempt rPendingW .confirm = (updateReservationStatus rPendingW .confirmed, none) ∧
    adminAttempt rCancelledW .confirm = (rCancelledW, some TransitionError.invalidTransition) :=
  ⟨(C2_admin_state_machine.2.1 rPendingW rfl).1,
   C2_admin_state_machine.2.2.2 rCancelledW .confirm (Or.inl rfl)⟩

/-- Claim C7: every status transition (the admin update, the guarded admin
attempt, and the customer cancel) changes only the status: owner, room ids,
dates, guest count, stored total price and guest contact data are untouched;
none of these operations takes current room prices as an input, so the price
is never recomputed. -/
theorem C7_transition_frame (r : Reservation) (s : RStatus) (e : AdminEvent)
    (now : Int) :
    nonStatusFields (updateReservationStatus r s) = nonStatusFields r ∧
    nonStatusFields (adminAttempt r e).1 = nonStatusFields r ∧
    nonStatusFields (customerCancel r now).1 = nonStatusFields r := by
  refine ⟨rfl, ?_, ?_⟩
  · unfold adminAttempt
    split <;> rfl
  · unfold customerCancel
    split
    · split <;> rfl
    · rfl

/-- Claim C8: adding a room whose status is not available fails with the
unavailable outcome and leaves the selection unchanged; adding an available
room appends it at the end of the selection, with no duplicate check. -/
theorem C8_addRoom (sel : List Room) (room : Room) :
    (room.status ≠ "available" →
        handleAddRoom sel room = (sel, some AddRoomError.unavailable)) ∧
    (room.status = "available" →
        handleAddRoom sel room = (sel ++ [room], none)) := by
  constructor <;> intro h <;> simp [handleAddRoom, h]

/-- Witness for C8: a maintenance room is rejected leaving the selection as
it was, and an available room already in the selection is appended again. -/
theorem C8_addRoom_witness :
    handleAddRoom [roomA] roomM = ([roomA], some AddRoomError.unavailable) ∧
    handleAddRoom [roomA] roomA = ([roomA, roomA], none) :=
  ⟨(C8_addRoom [roomA] roomM).1 (by simp [roomM]),
   (C8_addRoom [roomA] roomA).2 (by simp [roomA])⟩

/-- Claim C3 counterexample: a confirmed reservation whose check-in has
passed. The claim asserts that the cancel is rejected with the
already-started error regardless of the current status, but for a
non-pending reservation the page renders no cancel button, so the rejection
is never the already-started error. -/
theorem C3_counterexample :
    rConfirmedPast.check_in ≤ 5 ∧
    (customerCancel rConfirmedPast 5).2 ≠ some CancelError.alreadyStarted := by
  constructor
  · simp [rConfirmedPast]
  · simp [customerCancel, rConfirmedPast]

/-- Claim C3 as amended: a customer cancel succeeds exactly when the status
is pending and check-in is strictly in the future; when the status is pending
and check-in is not in the future it is rejected with the already-started
error and the reservation is unchanged; when the status is not pending no
cancel action is offered (the attempt is rejected, but not with the
already-started error) and the reservation is unchanged. -/
theorem C3_customer_cancel (r : Reservation) (now : Int) :
    ((customerCancel r now).2 = none ↔
        r.status = RStatus.pending ∧ now < r.check_in) ∧
    (r.status = RStatus.pending → now < r.check_in →
        customerCancel r now = (updateReservationStatus r .cancelled, none)) ∧
    (r.status = RStatus.pending → r.check_in ≤ now →
        customerCancel r now = (r, some CancelError.alreadyStarted)) ∧
    (r.status ≠ RStatus.pending →
        customerCancel r now = (r, some CancelError.notOffered)) := by
  refine ⟨?_, ?_, ?_, ?_⟩
  · by_cases hs : r.status = RStatus.pending
    · by_cases hd : r.check_in ≤ now
      · simp [customerCancel, hs, hd]
      · simp [customerCancel, hs, hd]
        omega
    · simp [customerCancel, hs]
  · intro hs hd
    simp [customerCancel, hs, not_le.mpr hd]
  · intro hs hd
    simp [customerCancel, hs, hd]
  · intro hs
    simp [customerCancel, hs]

/-- Witness for C3: cancelling a concrete pending reservation with a future
check-in succeeds, and the same reservation with check-in already passed is
rejected with the already-started error. -/
theorem C3_customer_cancel_witness :
    customerCancel rPendingW 0 = (updateReservationStatus rPendingW .cancelled, none) ∧
    customerCancel rPendingW msPerDay = (rPendingW, some CancelError.alreadyStarted) :=
  ⟨(C3_customer_cancel rPendingW 0).2.1 rfl (by norm_num [rPendingW, msPerDay]),
   (C3_customer_cancel rPendingW msPerDay).2.2.1 rfl (by norm_num [rPendingW])⟩

/-- Claim C4: with valid dates (so that the attempt reaches the capacity
check, which the source runs after the date checks), a guest count strictly
above the capacity sum of the selected rooms is rejected with the
capacity-exceeded error whose payload is the reported maximum (the capacity
sum), and nothing is persisted; a guest count at most the capacity sum passes
the check and the reservation is created. -/
theorem C4_capacity_check (user : String) (rooms : List Room) (ci co : Int)
    (guests : Int) (g : GuestData) (hlt : ci < co) :
    ((rooms.map Room.capacity).sum < guests →
        onSubmit (some user) rooms (some ci) (some co) guests g
          = .error (.capacityExceeded ((rooms.map Room.capacity).sum))) ∧
    (guests ≤ (rooms.map Room.capacity).sum →
        ∃ r, onSubmit (some user) rooms (some ci) (some co) guests g = .ok r) := by
  constructor <;> intro h
  · unfold onSubmit getTotalCapacity
    dsimp only
    rw [if_neg (not_le.mpr hlt), if_pos h]
  · have hok : onSubmit (some user) rooms (some ci) (some co) guests g
        = .ok { user_id := user, room_ids := rooms.map Room.id, check_in := ci,
                check_out := co, guests := guests,
                total_price := calculateTotal rooms (some ci) (some co),
                status := .pending, guest_data := g } := by
      unfold onSubmit
      dsimp only
      rw [if_neg (not_le.mpr hlt), if_neg (by simpa [getTotalCapacity] using not_lt.mpr h)]
    exact ⟨_, hok⟩

/-- Witness for C4: the spec's second example scenario, five guests against
a capacity sum of four, rejected reporting the maximum four; three guests
pass. -/
theorem C4_capacity_check_witness :
    onSubmit (some "user-1") [roomA, roomB] (some 0) (some 259200000) 5 guestW
      = .error (.capacityExceeded (([roomA, roomB].map Room.capacity).sum)) ∧
    (∃ r, onSubmit (some "user-1") [roomA, roomB] (some 0) (some 259200000) 3 guestW
      = .ok r) :=
  ⟨(C4_capacity_check "user-1" [roomA, roomB] 0 259200000 5 guestW
      (by norm_num)).1 (by simp [roomA, roomB]),
   (C4_capacity_check "user-1" [roomA, roomB] 0 259200000 3 guestW
      (by norm_num)).2 (by simp [roomA, roomB])⟩

/-- Claim C5: a creation attempt whose check-out is not strictly after its
check-in is rejected with the invalid-date-range error and nothing is
persisted; consequently every reservation `onSubmit` creates has check-out
strictly after check-in and at least one night. -/
theorem C5_date_range (user : String) (rooms : List Room) (ci co : Int)
    (guests : Int) (g : GuestData) :
    (co ≤ ci → onSubmit (some user) rooms (some ci) (some co) guests g
        = .error SubmitError.invalidDateRange) ∧
    (∀ r, onSubmit (some user) rooms (some ci) (some co) guests g = .ok r →
        r.check_in < r.check_out ∧ 1 ≤ nightsOf r.check_in r.check_out) := by
  constructor
  · intro h
    unfold onSubmit
    dsimp only
    rw [if_pos h]
  · intro r h
    unfold onSubmit at h
    dsimp only at h
    by_cases h1 : co ≤ ci
    · rw [if_pos h1] at h
      exact absurd h (by simp)
    · rw [if_neg h1] at h
      by_cases h2 : getTotalCapacity rooms < guests
      · rw [if_pos h2] at h
        exact absurd h (by simp)
      · rw [if_neg h2] at h
        injection h with h
        rw [← h]
        exact ⟨not_le.mp h1, one_le_nightsOf ci co (not_le.mp h1)⟩

/-- Witness for C5: the spec's third example scenario, check-out before
check-in, is rejected with the invalid-date-range error; and the concrete
created reservation of scenario one has a positive stay of three nights. -/
theorem C5_date_range_witness :
    onSubmit (some "user-1") [roomA] (some 259200000) (some 0) 1 guestW
      = .error SubmitError.invalidDateRange ∧
    (resW1.check_in < resW1.check_out ∧
      1 ≤ nightsOf resW1.check_in resW1.check_out) :=
  ⟨(C5_date_range "user-1" [roomA] 259200000 0 1 guestW).1 (by norm_num),
   (C5_date_range "user-1" [roomA, roomB] 0 259200000 3 guestW).2 resW1
     (by simp [onSubmit, calculateTotal, getTotalCapacity, nightsOf, msPerDay,
           roomA, roomB, resW1]
         norm_num)⟩

/-- Claim C6 is violated by the code: the guests input coerces an empty or
zero entry to 1, but a negative typed value such as "-3" passes
`parseInt(value) || 1` unchanged, passes the only submission-time guard
(`guests > totalCapacity`), and is persisted: the created reservation stores
a guest count of -3, below the positive-integer invariant the claim states. -/
theorem C6_negative_guests_bug :
    guestsFromInput (some (-3)) = -3 ∧
    onSubmit (some "user-1") [roomA] (some 0) (some msPerDay)
        (guestsFromInput (some (-3))) guestW = .ok resNeg ∧
    resNeg.guests < 1 := by
  refine ⟨rfl, ?_, by simp [resNeg]⟩
  simp [onSubmit, calculateTotal, getTotalCapacity, nightsOf, msPerDay,
    guestsFromInput, roomA, resNeg]

/-- Claim C9: the row-level insert policy accepts a reservation row exactly
when its owner is the authenticated caller, and the row built by `onSubmit`
carries the authenticated user as owner, so every persisted reservation is
owned by the user who created it. -/
theorem C9_insert_owner (uid : String) (row : Reservation) :
    (canInsertReservation uid row = true ↔ row.user_id = uid) ∧
    (∀ rooms ci co guests g r,
        onSubmit (some uid) rooms (some ci) (some co) guests g = .ok r →
        r.user_id = uid ∧ canInsertReservation uid r = true) := by
  constructor
  · simp only [canInsertReservation, beq_iff_eq]
    exact eq_comm
  · intro rooms ci co guests g r h
    unfold onSubmit at h
    dsimp only at h
    by_cases h1 : co ≤ ci
    · rw [if_pos h1] at h
      exact absurd h (by simp)
    · rw [if_neg h1] at h
      by_cases h2 : getTotalCapacity rooms < guests
      · rw [if_pos h2] at h
        exact absurd h (by simp)
      · rw [if_neg h2] at h
        injection h with h
        rw [← h]
        simp [canInsertReservation]

/-- Witness for C9: the concrete reservation created in scenario one is owned
by its creator and accepted by the insert policy for that creator. -/
theorem C9_insert_owner_witness :
    resW1.user_id = "user-1" ∧ canInsertReservation "user-1" resW1 = true :=
  (C9_insert_owner "user-1" resW1).2 [roomA, roomB] 0 259200000 3 guestW resW1
    (by simp [onSubmit, calculateTotal, getTotalCapacity, nightsOf, msPerDay,
          roomA, roomB, resW1]
        norm_num)

/-- Deleting the rows of one user first cannot increase the number of rows
of any user. -/
lemma count_after_delete_le (rows : List RoleRow) (uid u : String) :
    ((rows.filter fun row => row.user_id != uid).filter
        fun row => row.user_id == u).length
      ≤ (rows.filter fun row => row.user_id == u).length :=
  (List.Sublist.filter _ (List.filter_sublist rows)).length_le

/-- A user absent from the registered users owns no role row, provided every
role row belongs to a registered user. -/
lemma filter_eq_nil_of_fresh (s : RoleState) (uid : String)
    (hmem : ∀ row ∈ s.roleRows, row.user_id ∈ s.users) (hfresh : uid ∉ s.users) :
    s.roleRows.filter (fun row => row.user_id == uid) = [] := by
  rw [List.filter_eq_nil_iff]
  intro row hrow
  simp only [beq_iff_eq]
  intro hEq
  exact hfresh (hEq ▸ hmem row hrow)

/-- After deleting the rows of a user, that user owns no row. -/
lemma filter_delete_same (rows : List RoleRow) (uid : String) :
    (rows.filter fun row => row.user_id != uid).filter
        (fun row => row.user_id == uid) = [] := by
  rw [List.filter_eq_nil_iff]
  intro row hrow
  have hne := (List.mem_filter.mp hrow).2
  simpa using hne

/-- Both role-store operations preserve the invariant: rows belong to
registered users and no user has two role rows. -/
lemma roleInv_applyOp (s : RoleState) (op : RoleOp) (h : RoleInv s) :
    RoleInv (applyOp s op) := by
  obtain ⟨hmem, hcount⟩ := h
  cases op with
  | signup uid =>
      by_cases hu : uid ∈ s.users
      · simpa [applyOp, hu] using ⟨hmem, hcount⟩
      · refine ⟨?_, ?_⟩ <;> simp only [applyOp, if_neg hu, handleNewUser]
        · intro row hrow
          rcases List.mem_append.mp hrow with h1 | h1
          · exact List.mem_append.mpr (Or.inl (hmem row h1))
          · simp only [List.mem_singleton] at h1
            subst h1
            exact List.mem_append.mpr (Or.inr (by simp))
        · intro u
          unfold countRolesOf
          simp only [List.filter_append, List.length_append]
          by_cases he : uid = u
          · subst he
            rw [filter_eq_nil_of_fresh s uid hmem hu]
            simp
          · have h2 : (([⟨uid, AppRole.cliente⟩] : List RoleRow).filter
                fun row => row.user_id == u) = [] := by
              simp [he]
            rw [h2]
            simpa [countRolesOf] using hcount u
  | setRole uid newRole =>
      by_cases hu : uid ∈ s.users
      · refine ⟨?_, ?_⟩ <;> simp only [applyOp, if_pos hu, updateUserRole]
        · intro row hrow
          rcases List.mem_append.mp hrow with h1 | h1
          · exact hmem row (List.mem_of_mem_filter h1)
          · simp only [List.mem_singleton] at h1
            subst h1
            exact hu
        · intro u
          unfold countRolesOf
          simp only [List.filter_append, List.length_append]
          by_cases he : uid = u
          · subst he
            rw [filter_delete_same]
            simp
          · have h2 : (([⟨uid, newRole⟩] : List RoleRow).filter
                fun row => row.user_id == u) = [] := by
              simp [he]
            rw [h2]
            have hle := count_after_delete_le s.roleRows uid u
            have hc := hcount u
            unfold countRolesOf at hc
            simpa using le_trans hle hc
      · simpa [applyOp, hu] using ⟨hmem, hcount⟩

/-- The invariant holds along any run of operations from an invariant
state. -/
lemma roleInv_foldl (ops : List RoleOp) (s : RoleState) (h : RoleInv s) :
    RoleInv (ops.foldl applyOp s) := by
  induction ops generalizing s with
  | nil => exact h
  | cons op rest ih => exact ih _ (roleInv_applyOp s op h)

/-- The invariant holds in every state reachable from the empty store. -/
lemma roleInv_runOps (ops : List RoleOp) : RoleInv (runOps ops) := by
  refine roleInv_foldl ops ⟨[], []⟩ ⟨?_, ?_⟩
  · intro row hrow
    simp at hrow
  · intro uid
    simp [countRolesOf]

/-- Claim C10: after any sequence of normal operations (signups and admin
role changes) every user has at most one role row, and the role a signup
assigns to a fresh account is `cliente`, the customer role. -/
theorem C10_single_role (ops : List RoleOp) (uid : String) :
    countRolesOf (runOps ops) uid ≤ 1 ∧
    (uid ∉ (runOps ops).users →
        rolesOf (applyOp (runOps ops) (.signup uid)) uid = [AppRole.cliente]) := by
  obtain ⟨hmem, hcount⟩ := roleInv_runOps ops
  refine ⟨hcount uid, fun hfresh => ?_⟩
  simp only [applyOp, if_neg hfresh, handleNewUser]
  unfold rolesOf
  simp only [List.filter_append]
  rw [filter_eq_nil_of_fresh (runOps ops) uid hmem hfresh]
  simp

/-- Witness for C10: in the empty store the count bound holds for a concrete
user, and a concrete signup yields exactly one role row with role cliente. -/
theorem C10_single_role_witness :
    countRolesOf (runOps []) "u1" ≤ 1 ∧
    rolesOf (applyOp (runOps []) (.signup "u1")) "u1" = [AppRole.cliente] := by
  have h := C10_single_role [] "u1"
  exact ⟨h.1, h.2 (by simp [runOps])⟩

end SpringHotel
